import Mathlib

/-!
# Verification of `cg_ctdmo_qct.py` (CTDMO QCT automation)

A shallow embedding of the core of `cg_ctdmo_qct.py` — the serial
transport wrapper `ser_coms`, the response parsers (`split_csv`, the
`id?` pattern search), the per-step tolerance predicates of
`ctdmo_qct_test`, the operator-adjudication branch structure, and the
step-result bookkeeping — together with theorems settling the spec
claims about them.

Modelling conventions:
* The serial channel is modelled by explicit data: the initial
  `in_waiting` chunk plus the list of successive `ser.read(1)` results,
  each a string that is empty exactly when that read attempt timed out
  with no byte.
* Python `datetime` differences are modelled at whole-second
  granularity as `Int`; `timedelta.seconds` is floor-mod 86400, which
  for the positive modulus coincides with `Int.emod` (Lean's `%`).
* Instrument sample fields compared with `float(...)` are modelled as
  `ℚ`; every constant compared against in the source is exactly
  representable, so the comparisons agree with the binary doubles.
* Interactive loops (`while True` with operator retry) are modelled
  with explicit fuel; `none` means the script/fuel was exhausted, i.e.
  the corresponding Python run would still be blocked in the loop.
-/

namespace CtdmoQct

/-! ## Transport channel: `ser_coms` (source lines 85–106)

```python
ser.reset_input_buffer()
ser.write((cmd + '\r\n').encode('ascii'))
cap = ser.read(ser.in_waiting).decode('ascii')
while True:
    prev = cap
    cap += ser.read(1).decode('ascii')
    if prev == cap:
        capfile.write(cap)
        return cap
```
-/

/-- The `while True` read loop of `ser_coms`: `cap` accumulates bytes;
each element of `reads` is the string returned by one `ser.read(1)`
call (one character, or `""` on timeout).  The loop exits exactly when
`prev == cap`, i.e. when the read attempt of this iteration added
nothing.  Returns the completed capture and the reads that were never
made; `none` if the reads schedule runs out before quiescence. -/
def readLoop : String → List String → Option (String × List String)
  | _, [] => none
  | cap, r :: rs =>
    if cap ++ r = cap then some (cap, rs)
    else readLoop (cap ++ r) rs

/-- State a `ser_coms` call acts upon: the capture (transcript) file
contents and the bytes written out over the serial line so far. -/
structure Chan where
  transcript : String
  written : List String
  deriving DecidableEq, Repr

/-- Model of `ser_coms(ser, capfile, cmd)`: writes `cmd + '\r\n'` to the serial
line, reads the `in_waiting` chunk, then single bytes until one read
attempt yields no new data, appends the capture to the capture file and
returns it.  `inWaiting` is what `ser.read(ser.in_waiting)` returned,
`reads` the successive `ser.read(1)` results. -/
def ser_coms (ch : Chan) (cmd : String) (inWaiting : String)
    (reads : List String) : Option (String × Chan) :=
  match readLoop inWaiting reads with
  | none => none
  | some (cap, _) =>
    some (cap, ⟨ch.transcript ++ cap, ch.written ++ [cmd ++ "\r\n"]⟩)

/-! ## Clock tolerance (source lines 344 and 365)

```python
if not 0 <= (rollback_instr - rollback_target).seconds <= 15:
...
if not 0 <= (dt.utcnow() - currenttime_instr).seconds <= 15:
```
-/

/-- Python `timedelta.seconds` for a difference of `total` whole
seconds: the timedelta is normalised to `days` (possibly negative) plus
`seconds ∈ [0, 86400)`, so `.seconds` is the floor-mod of the total by
86400.  `Int.emod` (Lean's `%`) is nonnegative for the positive
modulus, matching Python's `%`. -/
def timedeltaSeconds (total : Int) : Int :=
  total % 86400

/-- The clock check on lines 344/365: `0 <= diff.seconds <= 15`, where
`total` is the observed-minus-target difference in whole seconds. -/
def clockWithinTolerance (total : Int) : Prop :=
  0 ≤ timedeltaSeconds total ∧ timedeltaSeconds total ≤ 15

instance (total : Int) : Decidable (clockWithinTolerance total) := by
  unfold clockWithinTolerance; infer_instance

/-! ## Response parsing helpers -/

/-- Characters at which Python `str.splitlines` breaks (the ASCII and
Latin-1 ones; the serial protocol is pure ASCII). -/
def isPyLinebreak (c : Char) : Bool :=
  c = '\n' || c = '\r' || c = '\x0b' || c = '\x0c' ||
  c = '\x1c' || c = '\x1d' || c = '\x1e' || c = '\x85'

/-- Worker for `pySplitlines`: `acc` is the current line, reversed.
`'\r\n'` counts as a single break; a trailing break produces no extra
empty line. -/
def splitlinesGo : List Char → List Char → List String
  | [], acc => if acc.isEmpty then [] else [String.mk acc.reverse]
  | '\r' :: '\n' :: rest, acc => String.mk acc.reverse :: splitlinesGo rest []
  | c :: rest, acc =>
    if isPyLinebreak c then String.mk acc.reverse :: splitlinesGo rest []
    else splitlinesGo rest (c :: acc)

/-- Python `str.splitlines()`. -/
def pySplitlines (s : String) : List String :=
  splitlinesGo s.data []

/-- Characters removed by Python `str.strip()` (whitespace; the ASCII
and Latin-1 ones). -/
def isPySpace (c : Char) : Bool :=
  c = ' ' || c = '\t' || c = '\n' || c = '\r' || c = '\x0b' || c = '\x0c' ||
  c = '\x1c' || c = '\x1d' || c = '\x1e' || c = '\x1f' || c = '\x85'

/-- Python `str.strip()` with no argument. -/
def pyStrip (s : String) : String :=
  String.mk (((s.data.dropWhile isPySpace).reverse.dropWhile isPySpace).reverse)

/-- Worker for `pySplit`: split at every occurrence of `sep`, keeping
empty pieces (Python `str.split` with an explicit separator). -/
def pySplitGo (sep : Char) : List Char → List Char → List String
  | [], acc => [String.mk acc.reverse]
  | c :: rest, acc =>
    if c = sep then String.mk acc.reverse :: pySplitGo sep rest []
    else pySplitGo sep rest (c :: acc)

/-- Python `s.split(sep)` for a single-character separator such as
`','`:  `"a,,b".split(',') == ['a', '', 'b']`, `"".split(',') == ['']`. -/
def pySplit (sep : Char) (s : String) : List String :=
  pySplitGo sep s.data []

/-- Model of `split_csv` (source lines 154–164):

```python
return [x.strip() for x in csv.splitlines()[1].split(',')]
```

`splitlines()[1]` raises `IndexError` when fewer than two lines are
present; the exception propagates (modelled as `none`). -/
def split_csv (s : String) : Option (List String) :=
  match pySplitlines s with
  | _ :: second :: _ => some ((pySplit ',' second).map pyStrip)
  | _ => none

/-! ## The `id?` response pattern (source line 130)

```python
remote_id = re.search('id\s=\s(\d{2})', id_query)
```
-/

/-- Scan a character list left to right for the regex
`id\s=\s(\d{2})`; return the two captured digit characters of the
first match. -/
def searchIdAux : List Char → Option String
  | 'i' :: 'd' :: w1 :: '=' :: w2 :: d1 :: d2 :: rest =>
    if isPySpace w1 && isPySpace w2 && d1.isDigit && d2.isDigit then
      some (String.mk [d1, d2])
    else
      searchIdAux ('d' :: w1 :: '=' :: w2 :: d1 :: d2 :: rest)
  | _ :: cs => searchIdAux cs
  | [] => none

/-- Model of `re.search('id\s=\s(\d{2})', s)`, returning group 1. -/
def searchId (s : String) : Option String :=
  searchIdAux s.data

/-- Python `sub in s` (substring containment). -/
def pyContains (s sub : String) : Bool :=
  decide (sub.data <:+: s.data)

/-! ## The observe → tolerance-check → operator-adjudication pattern

Every verification step of `ctdmo_qct_test` shares this branch shape
(e.g. source lines 404–423 for the sample-interval step):

```python
if violation:
    response = input("Does this bother you ... [y]/n ")
    if response != "n":
        response = input("Would you like to try again? [y]/n ")
        if response == "n":
            ... mark failed with evidence ...
        else ... retry ...
    else:
        ... mark passed ...
else:
    ... mark passed ...
```
-/

/-- How one execution of a verification step's check resolves. -/
inductive StepOutcomeKind where
  /-- No tolerance violation: passed with no operator involvement. -/
  | autoPass
  /-- Violation, but the operator answered `n` to "Does this bother
  you?": passed with a note. -/
  | operatorPass
  /-- Violation, operator bothered, declined retry: failed. -/
  | operatorFail
  /-- Violation, operator bothered, accepted retry: run again. -/
  | retry
  deriving DecidableEq, Repr

/-- The shared branch structure: `violation` is the step's tolerance
test, `botherAns`/`retryAns` the operator's two prompt answers. -/
def adjudicate (violation : Bool) (botherAns retryAns : String) :
    StepOutcomeKind :=
  if violation then
    if botherAns ≠ "n" then
      if retryAns = "n" then .operatorFail else .retry
    else .operatorPass
  else .autoPass

/-! ## Per-step tolerance tests -/

/-- Sample-interval test (source line 404, and 439):
`if sample_interval != desired_sample_interval` — exact string
inequality between the reported and configured interval. -/
def sampleIntervalViolation (desired reported : String) : Bool :=
  reported ≠ desired

/-- Value-plausibility test on the ambient-air sample (source lines
488–493): temperature outside [10, 30], conductivity outside [-1, 1]
or pressure outside [-2, 2]. -/
def plausibilityViolation (temp cond press : ℚ) : Bool :=
  temp < 10 || temp > 30 || cond < -1 || cond > 1 || press < -2 || press > 2

/-- Pressure-differential test (source line 523):
`if float(sample_bucket[3]) <= float(sample_air[3])`. -/
def pressureViolation (airPress bucketPress : ℚ) : Bool :=
  bucketPress ≤ airPress

/-- Temperature-differential test (source line 545):
`if float(sample_bucket[1]) - float(sample_air[1]) < 1.0`. -/
def temperatureViolation (airTemp bucketTemp : ℚ) : Bool :=
  bucketTemp - airTemp < 1

/-! ## Step-result bookkeeping (source lines 243–250 and 461–465) -/

/-- Python slice assignment `l[i:j] = repl` for `i ≤ j`:
`l[:i] + repl + l[j:]`. -/
def pySliceAssign (l : List α) (i j : Nat) (repl : List α) : List α :=
  l.take i ++ repl ++ l.drop (max i j)

/-- Model of `step_results_p = [False for _ in range(10)]` (source line 243). -/
def initialStepResults : List Bool :=
  List.replicate 10 false

/-- The reset at the top of the sample-acquisition loop (source line
464): `step_results_p[6:8] = [False] * 3`. -/
def resetAcquisitionSteps (results : List Bool) : List Bool :=
  pySliceAssign results 6 8 [false, false, false]

/-- Model of `testdata = [None for _ in range(10)]` (source line 246);
`none` is the `None` placeholder, `some e` a recorded evidence
string. -/
def initialTestData : List (Option String) :=
  List.replicate 10 none

/-- The companion reset on source line 465:
`testdata[6:8] = ["Test not completed."] * 3`. -/
def resetAcquisitionData (td : List (Option String)) : List (Option String) :=
  pySliceAssign td 6 8
    [some "Test not completed.", some "Test not completed.",
     some "Test not completed."]

/-! ## Session model: the handshake prologue of `ctdmo_qct_test`

At this level one `ser_coms` call is summarised by the device's full
reply for that command (`devResps` supplies one reply per command, in
order); `opAnswers` supplies the operator's prompt answers in order.
-/

/-- Observable resources of a run: commands transmitted over the
serial line, chunks appended to the capture file, and whether the
capture file and the serial port are still open. -/
structure SessionState where
  written : List String
  transcript : List String
  capOpen : Bool
  serOpen : Bool
  deriving DecidableEq, Repr

/-- State at the start of `ctdmo_qct_test`, once the port and capture
file are open (source lines 213–218). -/
def initialSession : SessionState :=
  ⟨[], [], true, true⟩

/-- One `ser_coms` exchange at session level: the command (plus CRLF)
goes out on the wire and the device's reply is appended to the capture
file. -/
def sendCmd (st : SessionState) (cmd resp : String) : SessionState :=
  { st with written := st.written ++ [cmd ++ "\r\n"],
            transcript := st.transcript ++ [resp] }

/-- Model of `tidy_up` (source lines 176–183): send `pwroff`, close the capture
file, release the serial port.  `resp` is the device's reply to
`pwroff`. -/
def tidy_up (st : SessionState) (resp : String) : SessionState :=
  { sendCmd st "pwroff" resp with capOpen := false, serOpen := false }

/-- Model of `get_remote_id` (source lines 118–136): query `id?` until the
reply matches `id\s=\s(\d{2})`; on a failed match ask the operator
whether to retry, `n` aborting with `None`.  Returns the result
together with the unconsumed device replies and operator answers;
`none` when a script or the fuel runs out while still looping. -/
def get_remote_id (st : SessionState) (devResps opAnswers : List String) :
    Nat → Option (Option String × SessionState × List String × List String)
  | 0 => none
  | fuel + 1 =>
    match devResps with
    | [] => none
    | r :: resps =>
      let st' := sendCmd st "id?" r
      match searchId r with
      | some rid => some (some rid, st', resps, opAnswers)
      | none =>
        match opAnswers with
        | [] => none
        | a :: answers =>
          if a = "n" then some (none, st', resps, answers)
          else get_remote_id st' resps answers fuel

/-- Model of `reset_remote_id` for the fixed `desired_id = '01'` (source lines
138–152): send `*id=01`; a reply containing `FAILED` prompts for retry
(`n` aborting with `None`); a reply containing `id = 01` confirms; any
other reply loops again without prompting. -/
def reset_remote_id (st : SessionState) (devResps opAnswers : List String) :
    Nat → Option (Option String × SessionState × List String × List String)
  | 0 => none
  | fuel + 1 =>
    match devResps with
    | [] => none
    | r :: resps =>
      let st' := sendCmd st "*id=01" r
      if pyContains r "FAILED" then
        match opAnswers with
        | [] => none
        | a :: answers =>
          if a = "n" then some (none, st', resps, answers)
          else reset_remote_id st' resps answers fuel
      else if pyContains r ("id = 01") then some (some "01", st', resps, opAnswers)
      else reset_remote_id st' resps opAnswers fuel

/-- Result of the handshake prologue: `Except.error` carries the
return message and final session state of a cancelled run,
`Except.ok` the confirmed remote id, session state and unconsumed
scripts of a run that proceeds to the test steps. -/
abbrev PrologueResult :=
  Except (String × SessionState) (String × SessionState × List String × List String)

/-- The `while remote_id != desired_id` loop (source lines 233–239)
around `reset_remote_id`, with `tidy_up` and the `"Error! Test
cancelled by user."` return on operator abort. -/
def handshakeLoop (rid : String) (st : SessionState)
    (devResps opAnswers : List String) : Nat → Option PrologueResult
  | 0 => none
  | fuel + 1 =>
    if rid = "01" then some (.ok (rid, st, devResps, opAnswers))
    else
      match reset_remote_id st devResps opAnswers fuel with
      | none => none
      | some (none, st', resps', _) =>
        match resps' with
        | pwoffResp :: _ =>
          some (.error ("Error! Test cancelled by user.", tidy_up st' pwoffResp))
        | [] => none
      | some (some rid', st', resps', answers') =>
        handshakeLoop rid' st' resps' answers' fuel

/-- The prologue of `ctdmo_qct_test` (source lines 220–239): wake the
IMM with `pwron`, establish the remote id via `get_remote_id` (operator
abort → `tidy_up` and return `"Attention! Test cancelled by user."`),
then reassign the id to `01` if needed via `handshakeLoop`. -/
def ctdmo_prologue (devResps opAnswers : List String) (fuel : Nat) :
    Option PrologueResult :=
  match devResps with
  | [] => none
  | pwronResp :: rest =>
    let st1 := sendCmd initialSession "pwron" pwronResp
    match get_remote_id st1 rest opAnswers fuel with
    | none => none
    | some (none, st2, resps2, _) =>
      match resps2 with
      | pwoffResp :: _ =>
        some (.error ("Attention! Test cancelled by user.", tidy_up st2 pwoffResp))
      | [] => none
    | some (some rid, st2, resps2, answers2) =>
      handshakeLoop rid st2 resps2 answers2 fuel

/-! ## Claim theorems -/

/-- With no tolerance violation, the shared branch structure passes
the step with no operator involvement. -/
theorem adjudicate_false_eq_autoPass (botherAns retryAns : String) :
    adjudicate false botherAns retryAns = .autoPass := by
  simp [adjudicate]

/-- With a tolerance violation, the shared branch structure never
resolves to an automatic pass: the operator-adjudication path is
taken. -/
theorem adjudicate_true_ne_autoPass (botherAns retryAns : String) :
    adjudicate true botherAns retryAns ≠ .autoPass := by
  unfold adjudicate
  repeat' split
  all_goals simp_all

/-- C1: the claim says the step-outcome lists hold exactly 10 entries
and that this count is preserved by every step of the runner, retried
sample-acquisition executions included.  The lists do start with 10
entries, but the slice assignment `step_results_p[6:8] = [False] * 3`
(and likewise `testdata[6:8] = [...] * 3`) at the top of the
sample-acquisition step replaces a two-slot slice with three elements,
growing each list to 11 entries — the count is *not* preserved. -/
theorem c1_step_result_count_not_preserved :
    initialStepResults.length = 10 ∧
    (resetAcquisitionSteps initialStepResults).length = 11 ∧
    initialTestData.length = 10 ∧
    (resetAcquisitionData initialTestData).length = 11 := by
  refine ⟨by decide, by decide, by decide, ?_⟩
  simp [resetAcquisitionData, initialTestData, pySliceAssign]

/-- C2 counterexample: the claim says the transmitted command is
appended to the transcript.  A `ser_coms` exchange with command `id?`
and device reply `ok` leaves the capture file holding exactly `"ok"`,
which does not contain the command text `"id?"` — only the raw
received response is logged. -/
theorem c2_command_not_in_transcript :
    ser_coms ⟨"", []⟩ "id?" "o" ["k", ""] = some ("ok", ⟨"ok", ["id?\r\n"]⟩) ∧
    pyContains "ok" "id?" = false := by
  exact ⟨rfl, by decide⟩

/-- C2 (amended): after any successful `ser_coms` call the raw
received response is appended verbatim to the transcript, and the
command (with CRLF) is written to the serial line but not to the
transcript. -/
theorem c2_transcript_gets_response_only (ch : Chan) (cmd inWaiting : String)
    (reads : List String) (resp : String) (ch' : Chan)
    (h : ser_coms ch cmd inWaiting reads = some (resp, ch')) :
    ch'.transcript = ch.transcript ++ resp ∧
    ch'.written = ch.written ++ [cmd ++ "\r\n"] := by
  cases hr : readLoop inWaiting reads with
  | none => simp [ser_coms, hr] at h
  | some p =>
    obtain ⟨cap, rest⟩ := p
    simp [ser_coms, hr] at h
    obtain ⟨rfl, rfl⟩ := h
    exact ⟨rfl, rfl⟩

/-- C2 witness: the amended theorem applied to the concrete exchange
of the counterexample. -/
theorem c2_transcript_gets_response_only_witness :
    (Chan.mk "ok" ["id?\r\n"]).transcript = (Chan.mk "" []).transcript ++ "ok" ∧
    (Chan.mk "ok" ["id?\r\n"]).written =
      (Chan.mk "" []).written ++ ["id?" ++ "\r\n"] :=
  c2_transcript_gets_response_only ⟨"", []⟩ "id?" "o" ["k", ""] "ok"
    ⟨"ok", ["id?\r\n"]⟩ rfl

/-- C3 counterexample: the claim says the response is considered
complete only after *two* consecutive read attempts yield no new data.
With read results `["a", "", "b", ""]` — fragment `a`, one timed-out
read, fragment `b` — the loop already returns at the single empty
read: the capture is `"a"`, not the full `"ab"`, and the read results
`["b", ""]` are never consumed. -/
theorem c3_single_empty_read_completes :
    ser_coms ⟨"", []⟩ "ts" "" ["a", "", "b", ""] =
      some ("a", ⟨"a", ["ts\r\n"]⟩) ∧
    readLoop "" ["a", "", "b", ""] = some ("a", ["b", ""]) ∧
    "a" ≠ "a" ++ "b" := by
  refine ⟨rfl, rfl, by decide⟩

/-- Helper for C3: appending a nonempty string strictly changes a
string. -/
theorem append_ne_self_of_ne_empty (cap c : String) (hc : c ≠ "") :
    cap ++ c ≠ cap := by
  intro heq
  apply hc
  have hl := congrArg String.length heq
  rw [String.length_append] at hl
  have : c.length = 0 := by omega
  cases c with
  | mk data =>
    cases data with
    | nil => rfl
    | cons a l => simp [String.length] at this

/-- Helper for C3: the read loop of `ser_coms` consumes every chunk up
to the first empty read result, returns their concatenation, and stops
there, leaving later read results unconsumed. -/
theorem readLoop_first_quiescence (cap : String) (chunks trailing : List String)
    (h : ∀ c ∈ chunks, c ≠ "") :
    readLoop cap (chunks ++ "" :: trailing) =
      some (chunks.foldl (· ++ ·) cap, trailing) := by
  induction chunks generalizing cap with
  | nil => simp [readLoop]
  | cons c cs ih =>
    have hc : cap ++ c ≠ cap :=
      append_ne_self_of_ne_empty cap c (h c (by simp))
    simp only [List.cons_append, readLoop, if_neg hc, List.foldl_cons]
    exact ih (cap ++ c) (fun x hx => h x (by simp [hx]))

/-- C3 (amended): `ser_coms` considers the response complete after a
*single* read attempt yields no new data.  Given a reply delivered in
fragmented chunks none of which is separated by a timed-out read, it
returns the full concatenated reply exactly at the first empty read
attempt and logs it verbatim to the transcript. -/
theorem c3_quiescence_reassembly (ch : Chan) (cmd inWaiting : String)
    (chunks trailing : List String) (h : ∀ c ∈ chunks, c ≠ "") :
    ser_coms ch cmd inWaiting (chunks ++ "" :: trailing) =
      some (chunks.foldl (· ++ ·) inWaiting,
        ⟨ch.transcript ++ chunks.foldl (· ++ ·) inWaiting,
         ch.written ++ [cmd ++ "\r\n"]⟩) := by
  simp [ser_coms, readLoop_first_quiescence inWaiting chunks trailing h]

/-- C3 witness: the amended theorem applied to a concrete fragmented
reply (`in_waiting` chunk `"s"`, then fragments `"a"`, `"b"`, then a
timed-out read; a further read result `"x"` is never consumed). -/
theorem c3_quiescence_reassembly_witness :
    ser_coms ⟨"", []⟩ "ts" "s" ["a", "b", "", "x"] =
      some ("sab", ⟨"sab", ["ts\r\n"]⟩) := by
  have h := c3_quiescence_reassembly ⟨"", []⟩ "ts" "s" ["a", "b"] ["x"]
    (by decide)
  simpa using h

/-- C4: the clock set/reset checks classify an observed-vs-target
difference of 0 s and of 15 s as within tolerance (step passes
automatically) and a difference of 16 s as a tolerance violation
(operator-adjudication path). -/
theorem c4_clock_tolerance_classification :
    clockWithinTolerance 0 ∧ clockWithinTolerance 15 ∧
    ¬ clockWithinTolerance 16 ∧
    (∀ botherAns retryAns : String,
      adjudicate (!decide (clockWithinTolerance 0)) botherAns retryAns =
        .autoPass) ∧
    (∀ botherAns retryAns : String,
      adjudicate (!decide (clockWithinTolerance 15)) botherAns retryAns =
        .autoPass) ∧
    (∀ botherAns retryAns : String,
      adjudicate (!decide (clockWithinTolerance 16)) botherAns retryAns ≠
        .autoPass) := by
  refine ⟨by decide, by decide, by decide, fun b r => ?_, fun b r => ?_,
    fun b r => ?_⟩
  · rw [show (!decide (clockWithinTolerance 0)) = false by decide]
    exact adjudicate_false_eq_autoPass b r
  · rw [show (!decide (clockWithinTolerance 15)) = false by decide]
    exact adjudicate_false_eq_autoPass b r
  · rw [show (!decide (clockWithinTolerance 16)) = true by decide]
    exact adjudicate_true_ne_autoPass b r

/-- C5: the sample-interval check is exact string equality — with the
configured interval `"120"`, a reported `"120"` passes the step with
no operator involvement for any prompt answers, while a reported
`"119"` is a violation and never resolves to an automatic pass (the
operator-adjudication path is taken). -/
theorem c5_sample_interval_exact_string_equality :
    (∀ botherAns retryAns : String,
      adjudicate (sampleIntervalViolation "120" "120") botherAns retryAns =
        .autoPass) ∧
    sampleIntervalViolation "120" "119" = true ∧
    (∀ botherAns retryAns : String,
      adjudicate (sampleIntervalViolation "120" "119") botherAns retryAns ≠
        .autoPass) := by
  refine ⟨fun b r => ?_, by decide, fun b r => ?_⟩
  · rw [show sampleIntervalViolation "120" "120" = false by decide]
    exact adjudicate_false_eq_autoPass b r
  · rw [show sampleIntervalViolation "120" "119" = true by decide]
    exact adjudicate_true_ne_autoPass b r

/-- C6: `split_csv` fails (propagates the malformed-response
condition, modelled by `none`) on any response with fewer than two
lines, and on any response whose `splitlines` begins with two lines it
returns exactly the second line split on commas with every field
stripped of whitespace. -/
theorem c6_split_csv_second_line (s : String) :
    ((pySplitlines s).length < 2 → split_csv s = none) ∧
    (∀ l0 l1 rest, pySplitlines s = l0 :: l1 :: rest →
      split_csv s = some ((pySplit ',' l1).map pyStrip)) := by
  constructor
  · intro h
    unfold split_csv
    match hm : pySplitlines s with
    | [] => simp
    | [_] => simp
    | _ :: _ :: _ =>
      rw [hm] at h
      simp only [List.length_cons] at h
      exact absurd h (by omega)
  · intro l0 l1 rest h
    unfold split_csv
    rw [h]

/-- C6 witness: a one-line response fails; a concrete two-line sample
response yields the stripped comma-split fields of its second line. -/
theorem c6_split_csv_second_line_witness :
    split_csv "S>" = none ∧
    split_csv "S>\r\n 20.1, 0.01, 1.5, 09 Oct 2026, 12:00:01\r\n" =
      some ["20.1", "0.01", "1.5", "09 Oct 2026", "12:00:01"] := by
  constructor
  · exact (c6_split_csv_second_line "S>").1 (by decide)
  · have h := (c6_split_csv_second_line
      "S>\r\n 20.1, 0.01, 1.5, 09 Oct 2026, 12:00:01\r\n").2
      "S>" " 20.1, 0.01, 1.5, 09 Oct 2026, 12:00:01" [] (by decide)
    rw [h]
    decide

/-- C7: the pressure-differential check passes (no violation) exactly
when the post-immersion pressure strictly exceeds the pre-immersion
pressure, and the temperature-differential check passes exactly when
the post-immersion temperature exceeds the pre-immersion temperature
by at least 1.0; in particular pressures 1.0 → 1.5 and temperatures
20.0 → 22.5 both pass. -/
theorem c7_differential_checks :
    (∀ airPress bucketPress : ℚ,
      pressureViolation airPress bucketPress = false ↔ airPress < bucketPress) ∧
    (∀ airTemp bucketTemp : ℚ,
      temperatureViolation airTemp bucketTemp = false ↔
        airTemp + 1 ≤ bucketTemp) ∧
    pressureViolation 1 1.5 = false ∧ temperatureViolation 20 22.5 = false := by
  refine ⟨fun a b => ?_, fun a b => ?_, ?_, ?_⟩
  · simp [pressureViolation, not_le]
  · simp only [temperatureViolation, decide_eq_false_iff_not, not_lt]
    constructor <;> intro h <;> linarith
  · norm_num [pressureViolation]
  · norm_num [temperatureViolation]

/-- C8: the value-plausibility bounds on the ambient-air reading pass
a reading of temperature 15.0, conductivity 0.0, pressure 0.0, and
flag a reading with temperature 35.0 (same other fields) as a
violation. -/
theorem c8_plausibility_bounds :
    plausibilityViolation 15 0 0 = false ∧
    plausibilityViolation 35 0 0 = true ∧
    (∀ botherAns retryAns : String,
      adjudicate (plausibilityViolation 15 0 0) botherAns retryAns =
        .autoPass) ∧
    (∀ botherAns retryAns : String,
      adjudicate (plausibilityViolation 35 0 0) botherAns retryAns ≠
        .autoPass) := by
  have h15 : plausibilityViolation 15 0 0 = false := by
    norm_num [plausibilityViolation]
  have h35 : plausibilityViolation 35 0 0 = true := by
    norm_num [plausibilityViolation]
  refine ⟨h15, h35, fun b r => ?_, fun b r => ?_⟩
  · rw [h15]; exact adjudicate_false_eq_autoPass b r
  · rw [h35]; exact adjudicate_true_ne_autoPass b r

/-- C9: when the operator answers `n` at a retry prompt of the
identify/reassign handshake, the run tears down in order — the
`pwroff` sleep command is sent, the capture file is closed, the serial
port is released — and `ctdmo_qct_test` returns a cancellation status
message instead of raising.  First part: decline after a failed `id?`
parse (any device replies, `searchId` finding no id).  Second part:
decline after a `FAILED` reply to the id reassignment. -/
theorem c9_operator_abort_teardown :
    (∀ pwronResp idResp pwoffResp : String, searchId idResp = none →
      ctdmo_prologue [pwronResp, idResp, pwoffResp] ["n"] 9 =
        some (.error ("Attention! Test cancelled by user.",
          ⟨["pwron\r\n", "id?\r\n", "pwroff\r\n"],
           [pwronResp, idResp, pwoffResp], false, false⟩))) ∧
    ctdmo_prologue ["wake", "id = 02", "FAILED", "bye"] ["n"] 9 =
      some (.error ("Error! Test cancelled by user.",
        ⟨["pwron\r\n", "id?\r\n", "*id=01\r\n", "pwroff\r\n"],
         ["wake", "id = 02", "FAILED", "bye"], false, false⟩)) := by
  constructor
  · intro pwronResp idResp pwoffResp h
    simp [ctdmo_prologue, get_remote_id, h, tidy_up, sendCmd, initialSession]
  · rfl

/-- C9 witness: the identify-path part of the theorem applied to a
concrete device script whose `id?` reply contains no id pattern. -/
theorem c9_operator_abort_teardown_witness :
    ctdmo_prologue ["wake", "garbage", "ok"] ["n"] 9 =
      some (.error ("Attention! Test cancelled by user.",
        ⟨["pwron\r\n", "id?\r\n", "pwroff\r\n"],
         ["wake", "garbage", "ok"], false, false⟩)) :=
  c9_operator_abort_teardown.1 "wake" "garbage" "ok" (by decide)

/-- C10: the clock-tolerance predicate uses only the seconds component
of the timedelta, discarding sign and whole days: an instrument clock
ahead of the target by `s` seconds with `1 ≤ s ≤ 86384` (a negative
difference) is a violation, while one behind the target by `k` whole
days plus `s` seconds with `k ≥ 1` and `0 ≤ s ≤ 15` is within
tolerance. -/
theorem c10_seconds_component_only :
    (∀ s : Int, 1 ≤ s → s ≤ 86384 → ¬ clockWithinTolerance (-s)) ∧
    (∀ k s : Int, 1 ≤ k → 0 ≤ s → s ≤ 15 →
      clockWithinTolerance (k * 86400 + s)) := by
  constructor
  · intro s h1 h2
    simp only [clockWithinTolerance, timedeltaSeconds, not_and]
    intro _
    omega
  · intro k s hk h0 h15
    constructor <;> · simp only [timedeltaSeconds]; omega

/-- C10 witness: the theorem applied to a clock 60 s ahead (violation)
and to a clock 2 days plus 7 s behind (within tolerance). -/
theorem c10_seconds_component_only_witness :
    ¬ clockWithinTolerance (-60) ∧ clockWithinTolerance (2 * 86400 + 7) :=
  ⟨c10_seconds_component_only.1 60 (by norm_num) (by norm_num),
   c10_seconds_component_only.2 2 7 (by norm_num) (by norm_num) (by norm_num)⟩

end CtdmoQct
